import Mathlib

/-!
Verification development for the CEBRIC-F1 backend core: the session-data
caching and on-demand computation pipeline (request validation with zod
schemas, cache-or-fetch branching over the session store, and the
subprocess-based Fetch Adapter in `F1Service`).

The embedding follows `server/services/f1-service.ts` (class `F1Service`)
and the two `registerRoutes` variants in the repository: the variant whose
handlers are wrapped in the catch-all `asyncHandler` (responds
`500 {error}` to any thrown error), and the variant with per-route
`try/catch` blocks (responds `400 {message, errors}` to `z.ZodError` and
`500 {message}` otherwise).

Modelling conventions:
  - JSON request bodies are a small `Json` value type; zod schema parsing
    is embedded per schema, collecting one issue per offending field.
  - JavaScript numbers occurring in request bodies and payloads are
    modelled as `Int`: no claim under verification depends on non-integer
    or floating-point arithmetic on these fields.
  - The spawned Python process is modelled by its observable outcome
    (`ProcOutcome`): either a spawn error event or an exit with code,
    accumulated stdout, and accumulated stderr. `JSON.parse` of stdout is
    a parameter `jsonParse` of each service operation (the adapter performs
    no schema validation of the parsed value).
  - The constant first argument `this.pythonPath` (an absolute path
    resolved at runtime) is elided from modelled argument lists; the
    positional arguments after the script path are modelled exactly.
  - Node `Error` values are modelled by their `message` string, which is
    the only part the route layer surfaces.
-/

/-- JSON values, for request bodies. Numbers are modelled as `Int`. -/
inductive Json where
  | null : Json
  | bool (b : Bool) : Json
  | num (n : Int) : Json
  | str (s : String) : Json
  | arr (xs : List Json) : Json
  | obj (fields : List (String × Json)) : Json
deriving Repr, BEq

/-- Field lookup on a JSON object (`body.field` access / zod key lookup);
`none` when the value is not an object or the key is absent. -/
def Json.getField : Json → String → Option Json
  | .obj fields, name => (fields.find? (fun f => f.1 == name)).map (fun f => f.2)
  | _, _ => none

/-- One lap entry of the session payload (`F1SessionResponse.laps[i]`). -/
structure LapData where
  driver : String
  lapNumber : Int
  lapTime : Int
  sector1 : Int
  sector2 : Int
  sector3 : Int
  compound : String
  isPersonalBest : Bool
deriving Repr, DecidableEq

/-- The session payload returned by the Python fetcher
(`F1SessionResponse`): driver list plus lap list. -/
structure SessionPayload where
  drivers : List String
  laps : List LapData
deriving Repr, DecidableEq

/-- Observable behaviour of one spawned external process: either the
`error` event fired (spawn failure), or the process closed with an exit
code after stdout/stderr were accumulated into single buffers. -/
inductive ProcOutcome where
  | spawnFail (msg : String) : ProcOutcome
  | exited (code : Int) (stdout : String) (stderr : String) : ProcOutcome
deriving Repr, DecidableEq

/-- JavaScript `String.prototype.trim()`: strips leading and trailing
whitespace. -/
def jsTrim (s : String) : String :=
  ⟨((s.data.dropWhile Char.isWhitespace).reverse.dropWhile Char.isWhitespace).reverse⟩

namespace F1Service

/-- Positional arguments `F1Service.getSessionData` passes to the spawned
process after the script path: `["session", year.toString(), gp, session]`,
with `drivers` appended only when present and non-empty. -/
def sessionArgs (year : Int) (gp sessionType : String)
    (drivers : Option (List String)) : List String :=
  ["session", toString year, gp, sessionType] ++
    (match drivers with
     | some ds => if ds.length > 0 then ds else []
     | none => [])

/-- Close/error handling of `F1Service.getSessionData`: spawn failure,
non-zero exit, empty stdout and unparseable stdout all reject with the
corresponding `Error` message; otherwise the parsed JSON is resolved. -/
def getSessionData (jsonParse : String → Except String SessionPayload)
    (proc : ProcOutcome) : Except String SessionPayload :=
  match proc with
  | .spawnFail msg => .error ("Failed to spawn Python process: " ++ msg)
  | .exited code stdout stderr =>
    if code ≠ 0 then
      .error ("FastF1 process failed with code " ++ toString code ++ ": " ++
        (if stderr.isEmpty then "Unknown error" else stderr))
    else if stdout.isEmpty || jsTrim stdout == "" then
      .error "FastF1 script returned empty output"
    else
      match jsonParse stdout with
      | .ok result => .ok result
      | .error parseMsg => .error ("Failed to parse FastF1 response: " ++ parseMsg)

/-- Positional arguments `F1Service.getTelemetryData` passes after the
script path; the `driver2`/`lap2` pair is appended only when
`driver2 && lap2` is truthy in JavaScript (both present, `driver2` a
non-empty string, `lap2` non-zero). -/
def telemetryArgs (year : Int) (gp sessionType driver1 : String) (lap1 : Int)
    (driver2 : Option String) (lap2 : Option Int) : List String :=
  ["telemetry", toString year, gp, sessionType, driver1, toString lap1] ++
    (match driver2, lap2 with
     | some d2, some l2 => if !d2.isEmpty && l2 != 0 then [d2, toString l2] else []
     | _, _ => [])

/-- Close/error handling of `F1Service.getTelemetryData`; the telemetry
payload is opaque to this layer (`Json`). -/
def getTelemetryData (jsonParse : String → Except String Json)
    (proc : ProcOutcome) : Except String Json :=
  match proc with
  | .spawnFail msg => .error ("Failed to spawn Python process: " ++ msg)
  | .exited code stdout stderr =>
    if code ≠ 0 then
      .error ("FastF1 telemetry process failed with code " ++ toString code ++ ": " ++
        (if stderr.isEmpty then "Unknown error" else stderr))
    else if stdout.isEmpty || jsTrim stdout == "" then
      .error "FastF1 telemetry script returned empty output"
    else
      match jsonParse stdout with
      | .ok result => .ok result
      | .error parseMsg => .error ("Failed to parse FastF1 telemetry response: " ++ parseMsg)

/-- Close/error handling of `F1Service.getAvailableGPs` (arguments after
the script path are `["gps", year.toString()]`). -/
def getAvailableGPs (jsonParse : String → Except String (List String))
    (proc : ProcOutcome) : Except String (List String) :=
  match proc with
  | .spawnFail msg => .error ("Failed to spawn Python process: " ++ msg)
  | .exited code stdout stderr =>
    if code ≠ 0 then
      .error ("FastF1 GP fetch failed with code " ++ toString code ++ ": " ++
        (if stderr.isEmpty then "Unknown error" else stderr))
    else if stdout.isEmpty || jsTrim stdout == "" then
      .error "FastF1 GP fetch script returned empty output"
    else
      match jsonParse stdout with
      | .ok result => .ok result
      | .error parseMsg => .error ("Failed to parse FastF1 GP response: " ++ parseMsg)

end F1Service

/-- One zod validation issue: path of the offending field (indices as
decimal strings) plus a message. Message texts are representative of the
zod defaults; no claim depends on their exact wording. -/
structure ZodIssue where
  path : List String
  message : String
deriving Repr, DecidableEq

namespace Zod

/-- zod `z.number().min(lo).max(hi)` applied to a looked-up object field. -/
def checkNumRange (name : String) (lo hi : Int) : Option Json → Except ZodIssue Int
  | none => .error ⟨[name], "Required"⟩
  | some (.num n) =>
    if n < lo then
      .error ⟨[name], "Number must be greater than or equal to " ++ toString lo⟩
    else if n > hi then
      .error ⟨[name], "Number must be less than or equal to " ++ toString hi⟩
    else .ok n
  | some _ => .error ⟨[name], "Expected number"⟩

/-- zod `z.number().min(lo)` (no upper bound). -/
def checkNumMin (name : String) (lo : Int) : Option Json → Except ZodIssue Int
  | none => .error ⟨[name], "Required"⟩
  | some (.num n) =>
    if n < lo then
      .error ⟨[name], "Number must be greater than or equal to " ++ toString lo⟩
    else .ok n
  | some _ => .error ⟨[name], "Expected number"⟩

/-- zod `z.string().min(1)`. -/
def checkStrMin1 (name : String) : Option Json → Except ZodIssue String
  | none => .error ⟨[name], "Required"⟩
  | some (.str s) =>
    if s.isEmpty then .error ⟨[name], "String must contain at least 1 character(s)"⟩
    else .ok s
  | some _ => .error ⟨[name], "Expected string"⟩

/-- zod `z.string().optional()`: absent is fine, present values must be
strings (the empty string passes — `min(1)` is not applied here). -/
def checkOptStr (name : String) : Option Json → Except ZodIssue (Option String)
  | none => .ok none
  | some (.str s) => .ok (some s)
  | some _ => .error ⟨[name], "Expected string"⟩

/-- zod `z.number().optional()`: absent is fine, present values must be
numbers (zero passes — no `min` is applied here). -/
def checkOptNum (name : String) : Option Json → Except ZodIssue (Option Int)
  | none => .ok none
  | some (.num n) => .ok (some n)
  | some _ => .error ⟨[name], "Expected number"⟩

/-- Issues raised by `z.array(z.string())` for non-string elements. -/
def arrayElemIssues (name : String) (xs : List Json) : List ZodIssue :=
  xs.enum.filterMap (fun p =>
    match p.2 with
    | .str _ => none
    | _ => some ⟨[name, toString p.1], "Expected string"⟩)

/-- String elements of a JSON array. -/
def arrayElemStrings (xs : List Json) : List String :=
  xs.filterMap (fun j => match j with | .str s => some s | _ => none)

/-- zod `z.array(z.string()).optional()`. -/
def checkOptStrArray (name : String) :
    Option Json → Except (List ZodIssue) (Option (List String))
  | none => .ok none
  | some (.arr xs) =>
    if arrayElemIssues name xs = [] then .ok (some (arrayElemStrings xs))
    else .error (arrayElemIssues name xs)
  | some _ => .error [⟨[name], "Expected array"⟩]

/-- Issue list of a single-issue check result. -/
def exIssues {α : Type} : Except ZodIssue α → List ZodIssue
  | .ok _ => []
  | .error e => [e]

/-- Issue list of a multi-issue check result. -/
def exIssuesL {α : Type} : Except (List ZodIssue) α → List ZodIssue
  | .ok _ => []
  | .error es => es

end Zod

/-- Parsed body of POST /api/f1/session (output of `sessionSchema.parse`). -/
structure SessionReq where
  year : Int
  gp : String
  session : String
  drivers : Option (List String)
deriving Repr, DecidableEq

/-- `sessionSchema.parse(req.body)`: zod object parse of
`{year: z.number().min(2018).max(2025), gp: z.string().min(1),
session: z.string().min(1), drivers: z.array(z.string()).optional()}`,
collecting every field issue into one thrown ZodError. -/
def sessionSchemaParse (body : Json) : Except (List ZodIssue) SessionReq :=
  match body with
  | .obj _ =>
    let yr := Zod.checkNumRange "year" 2018 2025 (body.getField "year")
    let gr := Zod.checkStrMin1 "gp" (body.getField "gp")
    let sr := Zod.checkStrMin1 "session" (body.getField "session")
    let dr := Zod.checkOptStrArray "drivers" (body.getField "drivers")
    match yr, gr, sr, dr with
    | .ok y, .ok g, .ok s, .ok d => .ok ⟨y, g, s, d⟩
    | _, _, _, _ =>
      .error (Zod.exIssues yr ++ Zod.exIssues gr ++ Zod.exIssues sr ++ Zod.exIssuesL dr)
  | _ => .error [⟨[], "Expected object"⟩]

/-- Parsed body of POST /api/f1/telemetry (output of
`telemetrySchema.parse`). -/
structure TelemetryReq where
  year : Int
  gp : String
  session : String
  driver1 : String
  lap1 : Int
  driver2 : Option String
  lap2 : Option Int
deriving Repr, DecidableEq

/-- `telemetrySchema.parse(req.body)`: zod object parse of
`{year: z.number().min(2018).max(2025), gp: z.string().min(1),
session: z.string().min(1), driver1: z.string().min(1),
lap1: z.number().min(1), driver2: z.string().optional(),
lap2: z.number().optional()}`. -/
def telemetrySchemaParse (body : Json) : Except (List ZodIssue) TelemetryReq :=
  match body with
  | .obj _ =>
    let yr := Zod.checkNumRange "year" 2018 2025 (body.getField "year")
    let gr := Zod.checkStrMin1 "gp" (body.getField "gp")
    let sr := Zod.checkStrMin1 "session" (body.getField "session")
    let d1 := Zod.checkStrMin1 "driver1" (body.getField "driver1")
    let l1 := Zod.checkNumMin "lap1" 1 (body.getField "lap1")
    let d2 := Zod.checkOptStr "driver2" (body.getField "driver2")
    let l2 := Zod.checkOptNum "lap2" (body.getField "lap2")
    match yr, gr, sr, d1, l1, d2, l2 with
    | .ok y, .ok g, .ok s, .ok a, .ok b, .ok c, .ok d => .ok ⟨y, g, s, a, b, c, d⟩
    | _, _, _, _, _, _, _ =>
      .error (Zod.exIssues yr ++ Zod.exIssues gr ++ Zod.exIssues sr ++
        Zod.exIssues d1 ++ Zod.exIssues l1 ++ Zod.exIssues d2 ++ Zod.exIssues l2)
  | _ => .error [⟨[], "Expected object"⟩]

/-- Modelled from the spec: the storage module (`storage.getF1Session`,
`storage.createF1Session`, `storage.createF1Lap`) is not among the
provided source files, only its call sites are; a SessionRecord holds an
opaque identifier, the composite key and the payload blob (spec section 3). -/
structure SessionRecord where
  id : Nat
  year : Int
  gp : String
  session : String
  sessionData : SessionPayload
deriving Repr, DecidableEq

/-- One persisted lap row, as built by the route from a payload lap entry;
`isPersonalBest` is stored as the string `"true"`/`"false"` (the route
converts the boolean explicitly). -/
structure LapRecord where
  sessionId : Nat
  driver : String
  lapNumber : Int
  lapTime : Int
  sector1 : Int
  sector2 : Int
  sector3 : Int
  compound : String
  isPersonalBest : String
deriving Repr, DecidableEq

/-- Modelled from the spec: the backing store is a key-value store over
SessionRecords plus a derived collection of LapRecords (spec sections 3, 6
and 9: `get(key) -> Option<Record>`, append-only writes, no eviction, no
in-place mutation, fresh opaque ids). -/
structure Storage where
  sessions : List SessionRecord
  laps : List LapRecord
  nextId : Nat
deriving Repr, DecidableEq

/-- The empty store. -/
def Storage.empty : Storage := ⟨[], [], 0⟩

/-- Modelled from the spec: `storage.getF1Session(year, gp, session)` —
lookup of the at-most-one record for a composite key (spec section 9:
`get(key) -> Option<Record>`). -/
def Storage.getF1Session (st : Storage) (year : Int) (gp sessionType : String) :
    Option SessionRecord :=
  st.sessions.find? (fun r => r.year == year && r.gp == gp && r.session == sessionType)

/-- Modelled from the spec: `storage.createF1Session({year, gp, session,
sessionData})` — unconditional append of a new record under a fresh id
(spec section 5: "each write is unconditional once a miss is detected"). -/
def Storage.createF1Session (st : Storage) (year : Int) (gp sessionType : String)
    (payload : SessionPayload) : SessionRecord × Storage :=
  let r : SessionRecord := ⟨st.nextId, year, gp, sessionType, payload⟩
  (r, ⟨st.sessions ++ [r], st.laps, st.nextId + 1⟩)

/-- Modelled from the spec: `storage.createF1Lap(...)` — append of one
derived lap row (spec section 3: created in bulk after the SessionRecord,
read-only afterward). -/
def Storage.createF1Lap (st : Storage) (l : LapRecord) : Storage :=
  ⟨st.sessions, st.laps ++ [l], st.nextId⟩

/-- The LapRecord the session route builds from one payload lap entry. -/
def mkLapRecord (sessionId : Nat) (l : LapData) : LapRecord :=
  ⟨sessionId, l.driver, l.lapNumber, l.lapTime, l.sector1, l.sector2, l.sector3,
    l.compound, if l.isPersonalBest then "true" else "false"⟩

/-- JSON bodies the modelled routes respond with. -/
inductive BodyVal where
  | sessionPayload (p : SessionPayload) : BodyVal
  | telemetry (t : Json) : BodyVal
  | gps (names : List String) : BodyVal
  | messageOnly (message : String) : BodyVal
  | messageWithErrors (message : String) (errors : List ZodIssue) : BodyVal
  | errorBody (message : String) : BodyVal
deriving Repr, BEq

/-- An HTTP response: status code plus JSON body. In the asyncHandler
variant error bodies are `{error: message, details?}` (`errorBody`; the
development-only stack trace is elided), in the try/catch variant
`{message}` (`messageOnly`) or `{message, errors}` (`messageWithErrors`). -/
structure Resp where
  status : Nat
  body : BodyVal
deriving Repr, BEq

/-- `error.message` of a thrown ZodError (upstream it is a JSON
serialization of the issue list; the exact rendering is irrelevant to the
claims, only that it reaches the catch-all as a message). -/
def zodErrorMessage (issues : List ZodIssue) : String :=
  String.intercalate "; "
    (issues.map (fun i => String.intercalate "." i.path ++ ": " ++ i.message))

/-- Body of the POST /api/f1/session handler after schema parsing (shared
verbatim by both `registerRoutes` variants): cache lookup; on hit the
stored payload is returned unchanged; on miss the Fetch Adapter runs once,
and on success one SessionRecord is created followed by one LapRecord per
entry of `sessionData.laps`. Returns the outcome, the updated store, and
the Fetch Adapter invocations (their positional argument lists). -/
def sessionRoute (fetch : List String → Except String SessionPayload)
    (req : SessionReq) (st : Storage) :
    Except String SessionPayload × Storage × List (List String) :=
  match st.getF1Session req.year req.gp req.session with
  | some cached => (.ok cached.sessionData, st, [])
  | none =>
    let args := F1Service.sessionArgs req.year req.gp req.session req.drivers
    match fetch args with
    | .error e => (.error e, st, [args])
    | .ok sessionData =>
      let created := st.createF1Session req.year req.gp req.session sessionData
      let st2 := sessionData.laps.foldl
        (fun acc l => acc.createF1Lap (mkLapRecord created.1.id l)) created.2
      (.ok sessionData, st2, [args])

/-- POST /api/f1/session, asyncHandler variant: any thrown error (ZodError
included) reaches the catch-all and becomes `500 {error: message}`. -/
def handleSessionAsync (fetch : List String → Except String SessionPayload)
    (body : Json) (st : Storage) : Resp × Storage × List (List String) :=
  match sessionSchemaParse body with
  | .error issues => (⟨500, .errorBody (zodErrorMessage issues)⟩, st, [])
  | .ok req =>
    match sessionRoute fetch req st with
    | (.ok p, st2, invs) => (⟨200, .sessionPayload p⟩, st2, invs)
    | (.error e, st2, invs) => (⟨500, .errorBody e⟩, st2, invs)

/-- POST /api/f1/session, try/catch variant: a ZodError becomes
`400 {message: "Invalid request parameters", errors}`, any other error
`500 {message}`. -/
def handleSessionTryCatch (fetch : List String → Except String SessionPayload)
    (body : Json) (st : Storage) : Resp × Storage × List (List String) :=
  match sessionSchemaParse body with
  | .error issues => (⟨400, .messageWithErrors "Invalid request parameters" issues⟩, st, [])
  | .ok req =>
    match sessionRoute fetch req st with
    | (.ok p, st2, invs) => (⟨200, .sessionPayload p⟩, st2, invs)
    | (.error e, st2, invs) => (⟨500, .messageOnly e⟩, st2, invs)

/-- Body of the POST /api/f1/telemetry handler after schema parsing: one
Fetch Adapter invocation with the telemetry argument list. -/
def telemetryRoute (fetch : List String → Except String Json) (req : TelemetryReq) :
    Except String Json × List (List String) :=
  let args := F1Service.telemetryArgs req.year req.gp req.session req.driver1
    req.lap1 req.driver2 req.lap2
  (fetch args, [args])

/-- Response shaping of the telemetry handler: `res.json(telemetryData)`
on success, the catch-all `500 {error}` on failure. -/
def telemetryRespond (r : Except String Json × List (List String)) :
    Resp × List (List String) :=
  match r with
  | (.ok t, invs) => (⟨200, .telemetry t⟩, invs)
  | (.error e, invs) => (⟨500, .errorBody e⟩, invs)

/-- POST /api/f1/telemetry, asyncHandler variant. -/
def handleTelemetryAsync (fetch : List String → Except String Json) (body : Json) :
    Resp × List (List String) :=
  match telemetrySchemaParse body with
  | .error issues => (⟨500, .errorBody (zodErrorMessage issues)⟩, [])
  | .ok req => telemetryRespond (telemetryRoute fetch req)

/-- The referential-integrity invariant of the store: every LapRecord
references an existing SessionRecord by id. -/
def Storage.Wf (st : Storage) : Prop :=
  ∀ l ∈ st.laps, ∃ r ∈ st.sessions, r.id = l.sessionId

/-- Decimal digit value of a character. -/
def decDigit? (c : Char) : Option Nat :=
  if c.isDigit then some (c.toNat - 48) else none

/-- Hexadecimal digit value of a character. -/
def hexDigit? (c : Char) : Option Nat :=
  if c.isDigit then some (c.toNat - 48)
  else if 'a' ≤ c ∧ c ≤ 'f' then some (c.toNat - 87)
  else if 'A' ≤ c ∧ c ≤ 'F' then some (c.toNat - 55)
  else none

/-- Value of the longest digit prefix of a character list; `none` when the
prefix is empty. -/
def digitsValue (digit? : Char → Option Nat) (base : Nat) (cs : List Char) : Option Nat :=
  let ds := cs.takeWhile (fun c => (digit? c).isSome)
  if ds.isEmpty then none
  else some (ds.foldl (fun acc c => acc * base + (digit? c).getD 0) 0)

/-- JavaScript `parseInt(s)` with the default radix: skip leading
whitespace, take an optional sign, then either a `0x`/`0X` hexadecimal
literal or the longest decimal-digit prefix, ignoring everything after it;
NaN (here `none`) when no digit follows. -/
def jsParseInt (s : String) : Option Int :=
  let cs := s.data.dropWhile Char.isWhitespace
  let signAndRest : Int × List Char :=
    match cs with
    | '-' :: rest => (-1, rest)
    | '+' :: rest => (1, rest)
    | _ => (1, cs)
  let mag : Option Nat :=
    match signAndRest.2 with
    | '0' :: 'x' :: rest => digitsValue hexDigit? 16 rest
    | '0' :: 'X' :: rest => digitsValue hexDigit? 16 rest
    | body => digitsValue decDigit? 10 body
  mag.map (fun m => signAndRest.1 * (m : Int))

/-- GET /api/f1/gps/:year, asyncHandler variant: `parseInt` the path
parameter, reject NaN or out-of-range years with
`400 {message: "Invalid year. Must be between 2018-2025"}` before any
fetch; otherwise invoke `getAvailableGPs` once. -/
def handleGpsAsync (fetchGps : List String → Except String (List String))
    (yearParam : String) : Resp × List (List String) :=
  match jsParseInt yearParam with
  | none => (⟨400, .messageOnly "Invalid year. Must be between 2018-2025"⟩, [])
  | some year =>
    if year < 2018 || year > 2025 then
      (⟨400, .messageOnly "Invalid year. Must be between 2018-2025"⟩, [])
    else
      match fetchGps ["gps", toString year] with
      | .ok gps => (⟨200, .gps gps⟩, [["gps", toString year]])
      | .error e => (⟨500, .errorBody e⟩, [["gps", toString year]])

/-- Whitespace-only and non-JSON stand-ins used by concrete witnesses. -/
def okEmptyParse : String → Except String SessionPayload := fun _ => .ok ⟨[], []⟩

/-- A `JSON.parse` behaviour that fails on every input, as it does on
non-JSON stdout such as a logging line. -/
def malformedParse : String → Except String SessionPayload := fun _ =>
  .error "Unexpected token"

/-- A concrete fetched session payload with two laps, for witnesses. -/
def samplePayload : SessionPayload :=
  ⟨["VER", "HAM"],
   [⟨"VER", 1, 83, 28, 27, 28, "SOFT", true⟩,
    ⟨"HAM", 1, 84, 28, 28, 28, "MEDIUM", false⟩]⟩

/-- A concrete valid POST /api/f1/session body, for witnesses. -/
def sampleBody : Json :=
  .obj [("year", .num 2023), ("gp", .str "Monza"), ("session", .str "R")]

/-- A POST /api/f1/session body whose year is out of range. -/
def badYearBody : Json :=
  .obj [("year", .num 2030), ("gp", .str "Monza"), ("session", .str "R")]

/-- A Fetch Adapter behaviour that always succeeds with `samplePayload`. -/
def stubFetch : List String → Except String SessionPayload := fun _ => .ok samplePayload

/-- A GP-list fetch behaviour that always succeeds. -/
def gpsStub : List String → Except String (List String) := fun _ => .ok ["Monza"]

/-- A Fetch Adapter behaviour that always fails as a spawn failure does. -/
def failFetch : List String → Except String SessionPayload := fun _ =>
  .error "Failed to spawn Python process: ENOENT"

/-- A concrete POST /api/f1/telemetry body carrying `driver2` but no
`lap2`. -/
def sampleTelemetryBody : Json :=
  .obj [("year", .num 2023), ("gp", .str "Monza"), ("session", .str "R"),
        ("driver1", .str "VER"), ("lap1", .num 5), ("driver2", .str "HAM")]

theorem foldl_createF1Lap_sessions (f : LapData → LapRecord) (ls : List LapData)
    (st : Storage) :
    (ls.foldl (fun acc l => acc.createF1Lap (f l)) st).sessions = st.sessions := by
  induction ls generalizing st with
  | nil => rfl
  | cons hd tl ih =>
    show (tl.foldl _ (st.createF1Lap (f hd))).sessions = st.sessions
    rw [ih]
    rfl

theorem foldl_createF1Lap_laps (f : LapData → LapRecord) (ls : List LapData)
    (st : Storage) :
    (ls.foldl (fun acc l => acc.createF1Lap (f l)) st).laps = st.laps ++ ls.map f := by
  induction ls generalizing st with
  | nil => simp
  | cons hd tl ih =>
    show (tl.foldl _ (st.createF1Lap (f hd))).laps = st.laps ++ (f hd :: tl.map f)
    rw [ih]
    simp [Storage.createF1Lap]

theorem foldl_createF1Lap_nextId (f : LapData → LapRecord) (ls : List LapData)
    (st : Storage) :
    (ls.foldl (fun acc l => acc.createF1Lap (f l)) st).nextId = st.nextId := by
  induction ls generalizing st with
  | nil => rfl
  | cons hd tl ih =>
    show (tl.foldl _ (st.createF1Lap (f hd))).nextId = st.nextId
    rw [ih]
    rfl

theorem storage_eta (st : Storage) : st = ⟨st.sessions, st.laps, st.nextId⟩ := rfl

theorem sessionRoute_miss_ok (fetch : List String → Except String SessionPayload)
    (req : SessionReq) (st : Storage) (p : SessionPayload)
    (hmiss : st.getF1Session req.year req.gp req.session = none)
    (hfetch : fetch (F1Service.sessionArgs req.year req.gp req.session req.drivers) = .ok p) :
    sessionRoute fetch req st =
      (.ok p,
       ⟨st.sessions ++ [⟨st.nextId, req.year, req.gp, req.session, p⟩],
        st.laps ++ p.laps.map (mkLapRecord st.nextId),
        st.nextId + 1⟩,
       [F1Service.sessionArgs req.year req.gp req.session req.drivers]) := by
  have hst : (p.laps.foldl (fun acc l => acc.createF1Lap
      (mkLapRecord (st.createF1Session req.year req.gp req.session p).1.id l))
      (st.createF1Session req.year req.gp req.session p).2) =
      (⟨st.sessions ++ [⟨st.nextId, req.year, req.gp, req.session, p⟩],
        st.laps ++ p.laps.map (mkLapRecord st.nextId), st.nextId + 1⟩ : Storage) := by
    rw [storage_eta (p.laps.foldl _ _)]
    rw [foldl_createF1Lap_sessions, foldl_createF1Lap_laps, foldl_createF1Lap_nextId]
    rfl
  simp only [sessionRoute, hmiss, hfetch, hst]

theorem getF1Session_append_hit (st : Storage) (y : Int) (g s : String)
    (p : SessionPayload) (laps2 : List LapRecord) (n2 : Nat)
    (hmiss : st.getF1Session y g s = none) :
    Storage.getF1Session ⟨st.sessions ++ [⟨st.nextId, y, g, s, p⟩], laps2, n2⟩ y g s =
      some ⟨st.nextId, y, g, s, p⟩ := by
  unfold Storage.getF1Session at hmiss ⊢
  rw [List.find?_append, hmiss, Option.none_or]
  simp [List.find?]

/-- Claim C5: whenever the external process exits with code 0 but its
accumulated stdout is empty or whitespace-only, each of the three Fetch
Adapter operations rejects with its EmptyOutput error message instead of
resolving with an empty result. -/
theorem c5_empty_output_rejected
    (jp : String → Except String SessionPayload)
    (jpT : String → Except String Json) (jpG : String → Except String (List String))
    (stdout stderr : String) (h : jsTrim stdout = "") :
    F1Service.getSessionData jp (.exited 0 stdout stderr) =
        .error "FastF1 script returned empty output" ∧
    F1Service.getTelemetryData jpT (.exited 0 stdout stderr) =
        .error "FastF1 telemetry script returned empty output" ∧
    F1Service.getAvailableGPs jpG (.exited 0 stdout stderr) =
        .error "FastF1 GP fetch script returned empty output" := by
  refine ⟨?_, ?_, ?_⟩ <;>
    simp [F1Service.getSessionData, F1Service.getTelemetryData,
      F1Service.getAvailableGPs, h]

theorem c5_empty_output_rejected_witness :
    F1Service.getSessionData okEmptyParse (.exited 0 " \t " "log noise") =
        .error "FastF1 script returned empty output" ∧
    F1Service.getTelemetryData (fun _ => .ok .null) (.exited 0 " \t " "log noise") =
        .error "FastF1 telemetry script returned empty output" ∧
    F1Service.getAvailableGPs (fun _ => .ok []) (.exited 0 " \t " "log noise") =
        .error "FastF1 GP fetch script returned empty output" :=
  c5_empty_output_rejected okEmptyParse (fun _ => .ok .null) (fun _ => .ok [])
    " \t " "log noise" rfl

/-- Claim C6 counterexample: with exit code 0 and the non-JSON stdout
`"@@@@"`, `getSessionData` rejects with exactly the parse-failure message;
that message contains no character of the raw output, so the error value
carries no copy (truncated or otherwise) of the raw output, contrary to
the claim. -/
theorem c6_counterexample :
    F1Service.getSessionData malformedParse (.exited 0 "@@@@" "") =
        .error "Failed to parse FastF1 response: Unexpected token" ∧
    "Failed to parse FastF1 response: Unexpected token".data.contains '@' = false := by
  exact ⟨rfl, by decide⟩

/-- Claim C6 (amended): when the process exits with code 0 and non-empty
stdout that `JSON.parse` rejects, the operation fails with the
MalformedOutput error carrying the parse error message; the raw output is
only written to the server console, not carried in the error value. -/
theorem c6_malformed_output (jp : String → Except String SessionPayload)
    (stdout stderr pe : String)
    (hne : (stdout.isEmpty || jsTrim stdout == "") = false)
    (hp : jp stdout = .error pe) :
    F1Service.getSessionData jp (.exited 0 stdout stderr) =
      .error ("Failed to parse FastF1 response: " ++ pe) := by
  simp [F1Service.getSessionData, hne, hp]

theorem c6_malformed_output_witness :
    F1Service.getSessionData malformedParse (.exited 0 "@@@@" "") =
      .error ("Failed to parse FastF1 response: " ++ "Unexpected token") :=
  c6_malformed_output malformedParse "@@@@" "" "Unexpected token" (by decide) rfl

/-- Claim C7: when the external process exits with a non-zero code, the
fetch rejects with a message carrying the exit code and the captured
stderr text, and the session route surfaces it as HTTP 500 with that
message (for empty stderr the message substitutes "Unknown error", which
still contains the empty stderr text trivially). -/
theorem c7_nonzero_exit (jp : String → Except String SessionPayload)
    (body : Json) (st : Storage) (req : SessionReq)
    (code : Int) (stdout stderr : String)
    (hcode : code ≠ 0)
    (hparse : sessionSchemaParse body = .ok req)
    (hmiss : st.getF1Session req.year req.gp req.session = none) :
    ∃ msg,
      F1Service.getSessionData jp (.exited code stdout stderr) = .error msg ∧
      handleSessionAsync
          (fun _ => F1Service.getSessionData jp (.exited code stdout stderr)) body st =
        (⟨500, .errorBody msg⟩, st,
         [F1Service.sessionArgs req.year req.gp req.session req.drivers]) ∧
      (∃ a b, msg = a ++ toString code ++ b) ∧
      (∃ a b, msg = a ++ stderr ++ b) := by
  refine ⟨"FastF1 process failed with code " ++ toString code ++ ": " ++
    (if stderr.isEmpty then "Unknown error" else stderr), ?_, ?_, ?_, ?_⟩
  · simp [F1Service.getSessionData, hcode]
  · simp [handleSessionAsync, hparse, sessionRoute, hmiss,
      F1Service.getSessionData, hcode]
  · exact ⟨"FastF1 process failed with code ",
      ": " ++ (if stderr.isEmpty then "Unknown error" else stderr),
      by simp [String.append_assoc]⟩
  · by_cases hse : stderr.isEmpty = true
    · refine ⟨"FastF1 process failed with code " ++ toString code ++ ": ",
        "Unknown error", ?_⟩
      rw [(String.isEmpty_iff stderr).mp hse]
      simp only [String.append_assoc, String.append_empty, String.empty_append]
      rfl
    · refine ⟨"FastF1 process failed with code " ++ toString code ++ ": ", "", ?_⟩
      simp only [Bool.not_eq_true] at hse
      simp [hse, String.append_assoc, String.append_empty]

theorem c7_nonzero_exit_witness :
    ∃ msg,
      F1Service.getSessionData okEmptyParse (.exited 1 "" "driver not found") =
        .error msg ∧
      handleSessionAsync
          (fun _ => F1Service.getSessionData okEmptyParse (.exited 1 "" "driver not found"))
          sampleBody Storage.empty =
        (⟨500, .errorBody msg⟩, Storage.empty,
         [F1Service.sessionArgs 2023 "Monza" "R" none]) ∧
      (∃ a b, msg = a ++ toString (1 : Int) ++ b) ∧
      (∃ a b, msg = a ++ "driver not found" ++ b) :=
  c7_nonzero_exit okEmptyParse sampleBody Storage.empty ⟨2023, "Monza", "R", none⟩
    1 "" "driver not found" (by decide) rfl rfl

/-- Claim C1: on a cache miss for POST /api/f1/session (drivers not
supplied, as in the spec scenario), the Fetch Adapter is invoked exactly
once with positional arguments `["session", year, gp, session]`; exactly
one SessionRecord and one LapRecord per entry of the payload lap array are
persisted, and the response is 200 with the fetched payload itself. -/
theorem c1_cache_miss_flow (fetch : List String → Except String SessionPayload)
    (body : Json) (st : Storage) (req : SessionReq) (payload : SessionPayload)
    (hparse : sessionSchemaParse body = .ok req)
    (hdrv : req.drivers = none)
    (hmiss : st.getF1Session req.year req.gp req.session = none)
    (hfetch : fetch ["session", toString req.year, req.gp, req.session] = .ok payload) :
    handleSessionAsync fetch body st =
      (⟨200, .sessionPayload payload⟩,
       ⟨st.sessions ++ [⟨st.nextId, req.year, req.gp, req.session, payload⟩],
        st.laps ++ payload.laps.map (mkLapRecord st.nextId),
        st.nextId + 1⟩,
       [["session", toString req.year, req.gp, req.session]]) ∧
    (st.laps ++ payload.laps.map (mkLapRecord st.nextId)).length =
      st.laps.length + payload.laps.length := by
  have hargs : F1Service.sessionArgs req.year req.gp req.session req.drivers =
      ["session", toString req.year, req.gp, req.session] := by
    simp [F1Service.sessionArgs, hdrv]
  constructor
  · have hroute := sessionRoute_miss_ok fetch req st payload hmiss
      (by rw [hargs]; exact hfetch)
    simp [handleSessionAsync, hparse, hroute, hargs]
  · simp

theorem c1_cache_miss_flow_witness :
    handleSessionAsync stubFetch sampleBody Storage.empty =
      (⟨200, .sessionPayload samplePayload⟩,
       ⟨[⟨0, 2023, "Monza", "R", samplePayload⟩],
        samplePayload.laps.map (mkLapRecord 0),
        1⟩,
       [["session", "2023", "Monza", "R"]]) ∧
    (samplePayload.laps.map (mkLapRecord 0)).length =
      samplePayload.laps.length := by
  have h := c1_cache_miss_flow stubFetch sampleBody Storage.empty
    ⟨2023, "Monza", "R", none⟩ samplePayload rfl rfl rfl rfl
  exact ⟨h.1, h.2⟩

/-- Claim C4: if the Fetch Adapter fails on a cache miss, the error
message is propagated to the HTTP caller unchanged and the store is left
untouched: no SessionRecord and no LapRecord is written. -/
theorem c4_fetch_failure_no_write (fetch : List String → Except String SessionPayload)
    (body : Json) (st : Storage) (req : SessionReq) (e : String)
    (hparse : sessionSchemaParse body = .ok req)
    (hmiss : st.getF1Session req.year req.gp req.session = none)
    (hfetch : fetch (F1Service.sessionArgs req.year req.gp req.session req.drivers) =
      .error e) :
    handleSessionAsync fetch body st =
      (⟨500, .errorBody e⟩, st,
       [F1Service.sessionArgs req.year req.gp req.session req.drivers]) := by
  simp [handleSessionAsync, hparse, sessionRoute, hmiss, hfetch]

theorem c4_fetch_failure_no_write_witness :
    handleSessionAsync failFetch sampleBody Storage.empty =
      (⟨500, .errorBody "Failed to spawn Python process: ENOENT"⟩, Storage.empty,
       [F1Service.sessionArgs 2023 "Monza" "R" none]) :=
  c4_fetch_failure_no_write failFetch sampleBody Storage.empty
    ⟨2023, "Monza", "R", none⟩ "Failed to spawn Python process: ENOENT" rfl rfl rfl

/-- Claim C2: if a POST /api/f1/session request succeeds, repeating it
sequentially returns the identical stored payload without invoking the
Fetch Adapter and without changing the store (cache-hit idempotence, no
re-validation, no staleness check). -/
theorem c2_cache_hit_idempotent (fetch : List String → Except String SessionPayload)
    (body : Json) (st : Storage)
    (h200 : (handleSessionAsync fetch body st).1.status = 200) :
    handleSessionAsync fetch body (handleSessionAsync fetch body st).2.1 =
      ((handleSessionAsync fetch body st).1,
       (handleSessionAsync fetch body st).2.1, []) := by
  cases hparse : sessionSchemaParse body with
  | error issues =>
    exfalso
    simp [handleSessionAsync, hparse] at h200
  | ok req =>
    cases hhit : st.getF1Session req.year req.gp req.session with
    | some cached =>
      simp [handleSessionAsync, hparse, sessionRoute, hhit]
    | none =>
      cases hfetch : fetch (F1Service.sessionArgs req.year req.gp req.session req.drivers) with
      | error e =>
        exfalso
        simp [handleSessionAsync, hparse, sessionRoute, hhit, hfetch] at h200
      | ok p =>
        have hroute := sessionRoute_miss_ok fetch req st p hhit hfetch
        have hfind := getF1Session_append_hit st req.year req.gp req.session p
          (st.laps ++ p.laps.map (mkLapRecord st.nextId)) (st.nextId + 1) hhit
        have hfirst : handleSessionAsync fetch body st =
            (⟨200, .sessionPayload p⟩,
             ⟨st.sessions ++ [⟨st.nextId, req.year, req.gp, req.session, p⟩],
              st.laps ++ p.laps.map (mkLapRecord st.nextId), st.nextId + 1⟩,
             [F1Service.sessionArgs req.year req.gp req.session req.drivers]) := by
          simp [handleSessionAsync, hparse, hroute]
        rw [hfirst]
        simp [handleSessionAsync, hparse, sessionRoute, hfind]

theorem c2_cache_hit_idempotent_witness :
    handleSessionAsync stubFetch sampleBody
        (handleSessionAsync stubFetch sampleBody Storage.empty).2.1 =
      ((handleSessionAsync stubFetch sampleBody Storage.empty).1,
       (handleSessionAsync stubFetch sampleBody Storage.empty).2.1, []) :=
  c2_cache_hit_idempotent stubFetch sampleBody Storage.empty rfl

/-- Claim C9: every operation of the session route preserves the
referential-integrity invariant (each LapRecord's sessionId names an
existing SessionRecord); records are only appended, never mutated or
removed; and every LapRecord created by the operation references a
SessionRecord created by the same operation, hence one created before it
for the same key. -/
theorem c9_lap_references_session (fetch : List String → Except String SessionPayload)
    (body : Json) (st : Storage) (h : st.Wf) :
    (handleSessionAsync fetch body st).2.1.Wf ∧
    ∃ newSessions newLaps,
      (handleSessionAsync fetch body st).2.1.sessions = st.sessions ++ newSessions ∧
      (handleSessionAsync fetch body st).2.1.laps = st.laps ++ newLaps ∧
      ∀ l ∈ newLaps, ∃ r ∈ newSessions, r.id = l.sessionId := by
  cases hparse : sessionSchemaParse body with
  | error issues =>
    refine ⟨by simpa [handleSessionAsync, hparse] using h,
      [], [], by simp [handleSessionAsync, hparse], by simp [handleSessionAsync, hparse],
      by simp⟩
  | ok req =>
    cases hhit : st.getF1Session req.year req.gp req.session with
    | some cached =>
      refine ⟨by simpa [handleSessionAsync, hparse, sessionRoute, hhit] using h,
        [], [], by simp [handleSessionAsync, hparse, sessionRoute, hhit],
        by simp [handleSessionAsync, hparse, sessionRoute, hhit], by simp⟩
    | none =>
      cases hfetch : fetch (F1Service.sessionArgs req.year req.gp req.session req.drivers) with
      | error e =>
        refine ⟨by simpa [handleSessionAsync, hparse, sessionRoute, hhit, hfetch] using h,
          [], [], by simp [handleSessionAsync, hparse, sessionRoute, hhit, hfetch],
          by simp [handleSessionAsync, hparse, sessionRoute, hhit, hfetch], by simp⟩
      | ok p =>
        have hroute := sessionRoute_miss_ok fetch req st p hhit hfetch
        have hfirst : (handleSessionAsync fetch body st).2.1 =
            (⟨st.sessions ++ [⟨st.nextId, req.year, req.gp, req.session, p⟩],
              st.laps ++ p.laps.map (mkLapRecord st.nextId), st.nextId + 1⟩ : Storage) := by
          simp [handleSessionAsync, hparse, hroute]
        rw [hfirst]
        refine ⟨?_, [⟨st.nextId, req.year, req.gp, req.session, p⟩],
          p.laps.map (mkLapRecord st.nextId), rfl, rfl, ?_⟩
        · intro l hl
          rcases List.mem_append.mp hl with hold | hnew
          · rcases h l hold with ⟨r, hr, hid⟩
            exact ⟨r, List.mem_append.mpr (Or.inl hr), hid⟩
          · rcases List.mem_map.mp hnew with ⟨ld, _, rfl⟩
            exact ⟨⟨st.nextId, req.year, req.gp, req.session, p⟩,
              List.mem_append.mpr (Or.inr (by simp)), rfl⟩
        · intro l hl
          rcases List.mem_map.mp hl with ⟨ld, _, rfl⟩
          exact ⟨⟨st.nextId, req.year, req.gp, req.session, p⟩, by simp, rfl⟩

theorem c9_lap_references_session_witness :
    (handleSessionAsync stubFetch sampleBody Storage.empty).2.1.Wf ∧
    ∃ newSessions newLaps,
      (handleSessionAsync stubFetch sampleBody Storage.empty).2.1.sessions =
        Storage.empty.sessions ++ newSessions ∧
      (handleSessionAsync stubFetch sampleBody Storage.empty).2.1.laps =
        Storage.empty.laps ++ newLaps ∧
      ∀ l ∈ newLaps, ∃ r ∈ newSessions, r.id = l.sessionId :=
  c9_lap_references_session stubFetch sampleBody Storage.empty
    (fun l hl => absurd hl (List.not_mem_nil l))

theorem checkOptStrArray_error_ne_nil (name : String) (oj : Option Json)
    (es : List ZodIssue) (h : Zod.checkOptStrArray name oj = .error es) :
    es ≠ [] := by
  intro hnil
  subst hnil
  cases oj with
  | none => simp [Zod.checkOptStrArray] at h
  | some j =>
    cases j with
    | arr xs =>
      by_cases hai : Zod.arrayElemIssues name xs = []
      · simp [Zod.checkOptStrArray, hai] at h
      · simp [Zod.checkOptStrArray, hai] at h
    | null => simp [Zod.checkOptStrArray] at h
    | bool b => simp [Zod.checkOptStrArray] at h
    | num n => simp [Zod.checkOptStrArray] at h
    | str s => simp [Zod.checkOptStrArray] at h
    | obj fields => simp [Zod.checkOptStrArray] at h

theorem sessionSchemaParse_error_ne_nil (body : Json) (issues : List ZodIssue)
    (h : sessionSchemaParse body = .error issues) : issues ≠ [] := by
  intro hnil
  subst hnil
  cases body with
  | obj fields =>
    rcases hyr : Zod.checkNumRange "year" 2018 2025 ((Json.obj fields).getField "year")
      with e1 | v1 <;>
    rcases hgr : Zod.checkStrMin1 "gp" ((Json.obj fields).getField "gp")
      with e2 | v2 <;>
    rcases hsr : Zod.checkStrMin1 "session" ((Json.obj fields).getField "session")
      with e3 | v3 <;>
    rcases hdr : Zod.checkOptStrArray "drivers" ((Json.obj fields).getField "drivers")
      with e4 | v4 <;>
    simp [sessionSchemaParse, hyr, hgr, hsr, hdr, Zod.exIssues, Zod.exIssuesL] at h <;>
    exact checkOptStrArray_error_ne_nil _ _ _ hdr h
  | null => simp [sessionSchemaParse] at h
  | bool b => simp [sessionSchemaParse] at h
  | num n => simp [sessionSchemaParse] at h
  | str s => simp [sessionSchemaParse] at h
  | arr xs => simp [sessionSchemaParse] at h

/-- Claim C3 counterexample: for the schema-invalid body
`{year: 2030, gp: "Monza", session: "R"}`, the asyncHandler variant of the
session route (the ZodError escapes the handler into the catch-all)
replies with status 500, not 400 — though the external process is still
never invoked. -/
theorem c3_counterexample :
    (handleSessionAsync stubFetch badYearBody Storage.empty).1.status = 500 ∧
    (handleSessionAsync stubFetch badYearBody Storage.empty).1.status ≠ 400 ∧
    (handleSessionAsync stubFetch badYearBody Storage.empty).2.2 = [] := by
  exact ⟨rfl, by decide, rfl⟩

/-- Claim C3 (amended): a request body failing schema validation never
invokes the external process in either route variant; the try/catch
variant replies 400 with the nonempty field-level issue list, while in
the asyncHandler variant the ZodError reaches the catch-all and yields
500. Body parse errors are the same ZodError path as range violations. -/
theorem c3_validation_failure (fetch : List String → Except String SessionPayload)
    (body : Json) (st : Storage) (issues : List ZodIssue)
    (hparse : sessionSchemaParse body = .error issues) :
    handleSessionTryCatch fetch body st =
      (⟨400, .messageWithErrors "Invalid request parameters" issues⟩, st, []) ∧
    handleSessionAsync fetch body st =
      (⟨500, .errorBody (zodErrorMessage issues)⟩, st, []) ∧
    issues ≠ [] :=
  ⟨by simp [handleSessionTryCatch, hparse],
   by simp [handleSessionAsync, hparse],
   sessionSchemaParse_error_ne_nil body issues hparse⟩

theorem c3_validation_failure_witness :
    handleSessionTryCatch stubFetch badYearBody Storage.empty =
      (⟨400, .messageWithErrors "Invalid request parameters"
          [⟨["year"], "Number must be less than or equal to 2025"⟩]⟩,
       Storage.empty, []) ∧
    handleSessionAsync stubFetch badYearBody Storage.empty =
      (⟨500, .errorBody (zodErrorMessage
          [⟨["year"], "Number must be less than or equal to 2025"⟩])⟩,
       Storage.empty, []) ∧
    ([⟨["year"], "Number must be less than or equal to 2025"⟩] : List ZodIssue) ≠ [] :=
  c3_validation_failure stubFetch badYearBody Storage.empty
    [⟨["year"], "Number must be less than or equal to 2025"⟩] rfl

/-- Claim C8 counterexample: the year path parameter `"2023abc"` is not an
integer, yet `parseInt` extracts its numeric prefix 2023, so the route
answers 200 with the fetched GP list and the Fetch Adapter IS invoked —
the claimed 400-with-no-invocation behaviour fails for such parameters. -/
theorem c8_counterexample :
    (handleGpsAsync gpsStub "2023abc").1.status ≠ 400 ∧
    (handleGpsAsync gpsStub "2023abc").2 ≠ [] ∧
    handleGpsAsync gpsStub "2023abc" = (⟨200, .gps ["Monza"]⟩, [["gps", "2023"]]) := by
  exact ⟨by decide, by decide, rfl⟩

/-- Claim C8 (amended): GET /api/f1/gps/:year replies
`400 {message: "Invalid year. Must be between 2018-2025"}` — a message
naming the supported 2018-2025 range — without invoking the Fetch
Adapter, exactly when `parseInt` of the path parameter is NaN or yields a
value outside [2018, 2025]; a non-integer parameter whose numeric prefix
parses into range (such as "2023abc") is accepted instead. -/
theorem c8_gps_year_validation (fetchGps : List String → Except String (List String))
    (yearParam : String)
    (h : jsParseInt yearParam = none ∨
      ∃ y, jsParseInt yearParam = some y ∧ (y < 2018 ∨ y > 2025)) :
    handleGpsAsync fetchGps yearParam =
      (⟨400, .messageOnly "Invalid year. Must be between 2018-2025"⟩, []) ∧
    ∃ a b, "Invalid year. Must be between 2018-2025" = a ++ "2018-2025" ++ b := by
  constructor
  · rcases h with hnan | ⟨y, hy, hrange⟩
    · simp [handleGpsAsync, hnan]
    · have hb : (y < 2018 || y > 2025) = true := by
        rcases hrange with h1 | h1 <;> simp [h1]
      simp [handleGpsAsync, hy, hb]
  · exact ⟨"Invalid year. Must be between ", "", rfl⟩

theorem c8_gps_year_validation_witness :
    handleGpsAsync gpsStub "2030" =
      (⟨400, .messageOnly "Invalid year. Must be between 2018-2025"⟩, []) ∧
    ∃ a b, "Invalid year. Must be between 2018-2025" = a ++ "2018-2025" ++ b :=
  c8_gps_year_validation gpsStub "2030"
    (Or.inr ⟨2030, by decide, Or.inr (by decide)⟩)

/-- Claim C10: when a valid POST /api/f1/telemetry body carries exactly
one of `driver2`/`lap2` (or `lap2 = 0`, falsy in JavaScript), the service
silently omits the pair from the external-process arguments, so the
request is handled exactly like the corresponding single-driver request
for driver1/lap1 and no error about the incomplete pair is raised. -/
theorem c10_partial_pair_omitted (fetch : List String → Except String Json)
    (body : Json) (req : TelemetryReq)
    (hparse : telemetrySchemaParse body = .ok req)
    (hcond : (req.driver2 = none ∧ req.lap2 ≠ none) ∨
             (req.driver2 ≠ none ∧ req.lap2 = none) ∨ req.lap2 = some 0) :
    F1Service.telemetryArgs req.year req.gp req.session req.driver1 req.lap1
        req.driver2 req.lap2 =
      ["telemetry", toString req.year, req.gp, req.session, req.driver1,
        toString req.lap1] ∧
    handleTelemetryAsync fetch body =
      telemetryRespond (telemetryRoute fetch
        ⟨req.year, req.gp, req.session, req.driver1, req.lap1, none, none⟩) := by
  have hargs : F1Service.telemetryArgs req.year req.gp req.session req.driver1
      req.lap1 req.driver2 req.lap2 =
      ["telemetry", toString req.year, req.gp, req.session, req.driver1,
        toString req.lap1] := by
    rcases hcond with ⟨hd2, _⟩ | ⟨_, hl2⟩ | hl2
    · simp [F1Service.telemetryArgs, hd2]
    · rcases hd2 : req.driver2 with _ | d2 <;>
        simp [F1Service.telemetryArgs, hd2, hl2]
    · rcases hd2 : req.driver2 with _ | d2 <;>
        simp [F1Service.telemetryArgs, hd2, hl2]
  refine ⟨hargs, ?_⟩
  simp only [handleTelemetryAsync, hparse, telemetryRoute]
  rw [hargs]
  have hbase : F1Service.telemetryArgs req.year req.gp req.session req.driver1
      req.lap1 none none =
      ["telemetry", toString req.year, req.gp, req.session, req.driver1,
        toString req.lap1] := by
    simp [F1Service.telemetryArgs]
  rw [hbase]

theorem c10_partial_pair_omitted_witness :
    F1Service.telemetryArgs 2023 "Monza" "R" "VER" 5 (some "HAM") none =
      ["telemetry", "2023", "Monza", "R", "VER", "5"] ∧
    handleTelemetryAsync (fun _ => .ok .null) sampleTelemetryBody =
      telemetryRespond (telemetryRoute (fun _ => .ok .null)
        ⟨2023, "Monza", "R", "VER", 5, none, none⟩) :=
  c10_partial_pair_omitted (fun _ => .ok .null) sampleTelemetryBody
    ⟨2023, "Monza", "R", "VER", 5, some "HAM", none⟩ rfl
    (Or.inr (Or.inl ⟨by decide, rfl⟩))
